import Mathlib

/-!
Shallow embedding of the LF TPC PID table producer
(src/PWGLF/TableProducer/lfTPCPID.cxx): the Bethe-Bloch parameter
resolution cascade (struct bbParams and its setValues overloads, lines
119-213), the energy-loss and resolution models (BetheBlochLf, lines
215-221, and BetheBlochResolutionLf, lines 269-280), the per-species
initialization cross-check (init, lines 328-439) and the per-track
processing entry points (the makeProcess macros, lines 441-504).

Configuration values and Bethe-Bloch constants are modelled as exact
rationals (the source stores single-precision floats; the decimal
literals of the source are taken at face value).  The real-valued
transcendental model functions are embedded over the reals.  C++ null
pointers are modelled as Option, with a returned `none` standing for a
null-pointer dereference (crash / undefined behaviour) in the source.
-/

/-- Closed enumeration of the nine mass hypotheses handled by the task
(the o2::track::PID identifiers used at lines 226-266 of the source). -/
inductive Species where
  | El
  | Mu
  | Pi
  | Ka
  | Pr
  | De
  | Tr
  | He
  | Al
deriving DecidableEq

/-- Names of the particles, as used to index the configuration table
(source line 45, particleNames). -/
def particleName : Species → String
  | .El => ("El")
  | .Mu => ("Mu")
  | .Pi => ("Pi")
  | .Ka => ("Ka")
  | .Pr => ("Pr")
  | .De => ("De")
  | .Tr => ("Tr")
  | .He => ("He")
  | .Al => ("Al")

/-- Electric charges of the nine species (o2::track::pid_constants::sCharges,
an external physical-constant table: charge 2 for Helium3 and Alpha,
charge 1 otherwise). -/
def sCharges : Species → ℚ
  | .He => 2
  | .Al => 2
  | _ => 1

/-- Full rest masses in GeV of the nine species
(o2::track::pid_constants::sMasses, an external physical-constant table). -/
def sMasses : Species → ℚ
  | .El => 0.000510998950
  | .Mu => 0.1056583745
  | .Pi => 0.13957039
  | .Ka => 0.493677
  | .Pr => 0.93827208816
  | .De => 1.87561294257
  | .Tr => 2.80892113298
  | .He => 2.80839160743
  | .Al => 3.7273794066

/-- Charge-normalized rest masses (o2::track::pid_constants::sMasses2Z:
the rest mass divided by the charge, so half the mass for Helium3 and
Alpha and the full mass for the singly charged species).  This is the
mass convention used by BetheBlochLf (source line 218). -/
def sMasses2Z (sp : Species) : ℚ := sMasses sp / sCharges sp

/-- Bethe-Bloch parameter set of one species, with the compiled-in
default values (source lines 119-128). -/
structure bbParams where
  bb1 : ℚ := 0.03209809958934784
  bb2 : ℚ := 19.9768009185791
  bb3 : ℚ := 2.5266601063857674e-16
  bb4 : ℚ := 2.7212300300598145
  bb5 : ℚ := 6.080920219421387
  mip : ℚ := 50
  exp : ℚ := 2.299999952316284
  res : ℚ := 0.002
deriving DecidableEq

/-- Compiled-in default parameter set (the member initializers of struct
bbParams, source lines 120-127). -/
def bbParamsDefault : bbParams := {}

/-- Number of species (source line 43). -/
def nSpecies : Nat := 9

/-- Number of parameters per species in the configuration table
(source line 44). -/
def nParameters : Nat := 11

/-- Compile-time content of the structured configuration table: a
value-initialized nSpecies x nParameters float array, hence all zeros
(source line 51). -/
def defaultParameters : Fin nSpecies → Fin nParameters → ℚ := fun _ _ => 0

/-- Structured configuration table (the LabeledArray Configurable
bbParameters of source lines 83-85), indexed by particle name and
parameter name. -/
def ConfigTable : Type := String → String → ℚ

/-- Overload setValues(std::vector float) of struct bbParams (source
lines 129-146): overwrite all eight constants when the vector has size
exactly 8, otherwise log an error and leave the parameters unchanged. -/
def bbParams.setValuesVec (p : bbParams) (v : List ℚ) : bbParams × Bool :=
  if v.length ≠ 8 then (p, false)
  else
    ({ bb1 := v.getD 0 0
       bb2 := v.getD 1 0
       bb3 := v.getD 2 0
       bb4 := v.getD 3 0
       bb5 := v.getD 4 0
       mip := v.getD 5 0
       exp := v.getD 6 0
       res := v.getD 7 0 }, true)

/-- Overload setValues(const char particle, Configurable LabeledArray)
of struct bbParams (source lines 148-164): if the per-species flag
named Set parameters is below 1.5 keep the current values, otherwise
build the 8-entry vector from the table and overwrite. -/
def bbParams.setValuesCfg (p : bbParams) (particle : String) (tbl : ConfigTable) :
    bbParams × Bool :=
  if tbl particle ("Set parameters") < 1.5 then (p, false)
  else
    bbParams.setValuesVec p
      [tbl particle ("bb1"), tbl particle ("bb2"), tbl particle ("bb3"),
       tbl particle ("bb4"), tbl particle ("bb5"), tbl particle ("MIP value"),
       tbl particle ("Charge exponent"), tbl particle ("Resolution")]

/-- Histogram-like external object: a TH1F with a labeled x axis,
modelled as the ordered list of its (label, content) bins. -/
structure TH1F where
  bins : List (String × ℚ)
deriving DecidableEq

/-- Position (1-based, as in ROOT) of the bin carrying a given label,
if present. -/
def binIndex (lab : String) : List (String × ℚ) → Option Nat
  | [] => none
  | b :: rest => if b.1 = lab then some 1 else Option.map Nat.succ (binIndex lab rest)

/-- Content of the 1-based bin i of a bin list; out-of-range bins read
as zero, as in ROOT. -/
def binContent : Nat → List (String × ℚ) → ℚ
  | _, [] => 0
  | 0, _ :: _ => 0
  | 1, b :: _ => b.2
  | n + 2, _ :: rest => binContent (n + 1) rest

/-- TAxis::FindBin on a labeled axis: return the bin of the label if
present; otherwise the axis is extendable and a new labeled bin (with
content zero) is appended, returning its position. -/
def TH1F.findBin (h : TH1F) (lab : String) : TH1F × Nat :=
  match binIndex lab h.bins with
  | some i => (h, i)
  | none => (TH1F.mk (h.bins ++ [(lab, 0)]), h.bins.length + 1)

/-- TH1F::GetBinContent. -/
def TH1F.getBinContent (h : TH1F) (i : Nat) : ℚ := binContent i h.bins

/-- TH1F::GetNbinsX. -/
def TH1F.getNbinsX (h : TH1F) : Nat := h.bins.length

/-- Ordered labels of the eight named-bin lookups performed by
setValues(TH1F), source lines 170-177. -/
def binLabels : List String :=
  [("bb1"), ("bb2"), ("bb3"), ("bb4"), ("bb5"),
   ("MIP value"), ("Charge exponent"), ("Resolution")]

/-- Sequential GetBinContent(FindBin(label)) lookups over a list of
labels, threading the (possibly extended) histogram state, in source
evaluation order (lines 170-177). -/
def lookupAll : TH1F → List String → TH1F × List ℚ
  | h, [] => (h, [])
  | h, lab :: rest =>
    let fb := h.findBin lab
    let r := lookupAll fb.1 rest
    (r.1, fb.1.getBinContent fb.2 :: r.2)

/-- Overload setValues(TH1F) of struct bbParams (source lines 166-184):
record the bin count, perform the eight named lookups (which extend the
axis when a label is missing), and fail -- keeping the current values --
when the bin count changed; otherwise overwrite from the 8-entry vector. -/
def bbParams.setValuesHist (p : bbParams) (h : TH1F) : bbParams × Bool :=
  let n := h.getNbinsX
  let r := lookupAll h binLabels
  if r.1.getNbinsX ≠ n then (p, false)
  else bbParams.setValuesVec p r.2

/-- Test of the reserved calibration-store scheme prefix: the check
rfind(prefix, 0) == 0 of source line 205, i.e. the string starts with
the given prefix. -/
def strStartsWith (s pre : String) : Bool := pre.data.isPrefixOf s.data

/-- Local ROOT file, as seen through TFile::GetObject: a map from object
name to the contained histogram, if any. -/
structure TFile where
  getObject : String → Option TH1F

/-- Overload setValues(TFile) of struct bbParams (source lines 186-196):
fetch the histogram named hpar from the file; if absent log an error and
keep the current values, otherwise delegate to setValues(TH1F). -/
def bbParams.setValuesFile (p : bbParams) (f : TFile) : bbParams × Bool :=
  match f.getObject ("hpar") with
  | none => (p, false)
  | some h => bbParams.setValuesHist p h

/-- Overload setValues(Configurable string, Service BasicCCDBManager) of
struct bbParams (source lines 198-211).  The locator is ignored when its
length is at most 1.  A locator starting with the reserved scheme prefix
is stripped and fetched from the calibration store; any other locator is
opened as a local file.  The store and the file opener follow the
collaborator contracts (fetch may yield NotFound, TFile::Open may yield
a null pointer); the source passes the fetched pointer on WITHOUT a null
check, so a missing store object or a failed file open dereferences a
null pointer: that crash is modelled by the result `none`. -/
def bbParams.setValuesStr (p : bbParams) (loc : String)
    (store : String → Option TH1F) (fileOpen : String → Option TFile) :
    Option (bbParams × Bool) :=
  if loc.length ≤ 1 then some (p, false)
  else
    if strStartsWith loc ("ccdb://") then
      match store (loc.drop 7) with
      | none => none
      | some h => some (bbParams.setValuesHist p h)
    else
      match fileOpen loc with
      | none => none
      | some f => some (bbParams.setValuesFile p f)

/-- Per-species parameter resolution cascade as executed by init for an
enabled species (source lines 330-339): start from the compiled-in
defaults, apply the configuration-table override, then apply the
external-locator override; the Bool results are ignored, exactly as in
the source.  A `none` result models the process crashing inside the
external tier (see setValuesStr). -/
def resolve (sp : Species) (tbl : ConfigTable) (loc : String)
    (store : String → Option TH1F) (fileOpen : String → Option TFile) :
    Option bbParams :=
  let p1 := (bbParams.setValuesCfg bbParamsDefault (particleName sp) tbl).1
  Option.map Prod.fst (bbParams.setValuesStr p1 loc store fileOpen)

/-- Name of the compact (tiny) output table of a species (the strings of
the isTableRequiredInWorkflow checks, source lines 336-423). -/
def tinyTableName : Species → String
  | .El => ("pidTPCLfEl")
  | .Mu => ("pidTPCLfMu")
  | .Pi => ("pidTPCLfPi")
  | .Ka => ("pidTPCLfKa")
  | .Pr => ("pidTPCLfPr")
  | .De => ("pidTPCLfDe")
  | .Tr => ("pidTPCLfTr")
  | .He => ("pidTPCLfHe")
  | .Al => ("pidTPCLfAl")

/-- Name of the full output table of a species. -/
def fullTableName : Species → String
  | .El => ("pidTPCLfFullEl")
  | .Mu => ("pidTPCLfFullMu")
  | .Pi => ("pidTPCLfFullPi")
  | .Ka => ("pidTPCLfFullKa")
  | .Pr => ("pidTPCLfFullPr")
  | .De => ("pidTPCLfFullDe")
  | .Tr => ("pidTPCLfFullTr")
  | .He => ("pidTPCLfFullHe")
  | .Al => ("pidTPCLfFullAl")

/-- Outcome of the per-species branch of init (source lines 330-426). -/
inductive InitOutcome where
  | fatal
  | skipped
  | resolved (p : bbParams)
  | crashed
deriving DecidableEq

/-- Per-species branch of init (source lines 330-426): when either
processing mode of the species is enabled, run the resolution cascade;
otherwise, if any of the species' output tables is required by the
workflow, LOG(fatal) aborts the process before any track is processed
and before any table is created (outcome fatal); otherwise the species
is skipped. -/
def initSpecies (sp : Species) (doproc doprocFull : Bool) (required : String → Bool)
    (tbl : ConfigTable) (loc : String) (store : String → Option TH1F)
    (fileOpen : String → Option TFile) : InitOutcome :=
  if doproc || doprocFull then
    match resolve sp tbl loc store fileOpen with
    | some p => InitOutcome.resolved p
    | none => InitOutcome.crashed
  else
    if required (tinyTableName sp) || required (fullTableName sp) then
      InitOutcome.fatal
    else InitOutcome.skipped

/-- Read-only track record: the kinematic input tpcInnerParam, the
measured tpcSignal, and the pre-stored legacy values supplied by the
joined upstream tables (the packed compact residual and the full
(expected sigma, n-sigma) pair). -/
structure Track where
  tpcInnerParam : ℝ
  tpcSignal : ℝ
  tpcNSigmaStore : Int
  tpcExpSigma : ℝ
  tpcNSigma : ℝ

/-- Modelled from the spec: the five-parameter closed-form ALEPH
Bethe-Bloch curve (the external collaborator
DataFormatsTPC/BetheBlochAleph.h, called at source lines 220 and 278):
beta is bg over sqrt(1 + bg^2), aa is beta to the kp4, bb is
log(kp3 + (1/bg) to the kp5), and the value is (kp2 - aa - bb) * kp1 / aa. -/
noncomputable def BetheBlochAleph (bg kp1 kp2 kp3 kp4 kp5 : ℝ) : ℝ :=
  let beta := bg / Real.sqrt (1 + bg * bg)
  let aa := Real.rpow beta kp4
  let bb := Real.log (kp3 + Real.rpow (1 / bg) kp5)
  (kp2 - aa - bb) * kp1 / aa

/-- Energy-loss model BetheBlochLf (source lines 215-221): the expected
detector signal is mip times the ALEPH curve evaluated at
tpcInnerParam times the inverse charge-normalized mass, times the
charge raised to the exponent constant. -/
noncomputable def BetheBlochLf (id : Species) (track : Track) (params : bbParams) : ℝ :=
  let invmass : ℝ := 1 / ((sMasses2Z id : ℚ) : ℝ)
  let charge : ℝ := ((sCharges id : ℚ) : ℝ)
  (params.mip : ℝ) *
    BetheBlochAleph (track.tpcInnerParam * invmass) (params.bb1 : ℝ) (params.bb2 : ℝ)
      (params.bb3 : ℝ) (params.bb4 : ℝ) (params.bb5 : ℝ) *
    Real.rpow charge (params.exp : ℝ)

/-- Resolution model BetheBlochResolutionLf (source lines 269-280):
dEdx is the expected signal, deltaP is res times sqrt(dEdx), bgDelta is
tpcInnerParam times (1 + deltaP) times NOT the charge-normalized but the
inverse FULL mass, dEdx2 re-evaluates the curve at bgDelta with the same
mip and charge factors, and the result is the absolute difference. -/
noncomputable def BetheBlochResolutionLf (id : Species) (track : Track) (params : bbParams) : ℝ :=
  let invmass : ℝ := 1 / ((sMasses id : ℚ) : ℝ)
  let charge : ℝ := ((sCharges id : ℚ) : ℝ)
  let dEdx := BetheBlochLf id track params
  let deltaP := (params.res : ℝ) * Real.sqrt dEdx
  let bgDelta := track.tpcInnerParam * (1 + deltaP) * invmass
  let dEdx2 := (params.mip : ℝ) *
    BetheBlochAleph bgDelta (params.bb1 : ℝ) (params.bb2 : ℝ) (params.bb3 : ℝ)
      (params.bb4 : ℝ) (params.bb5 : ℝ) *
    Real.rpow charge (params.exp : ℝ)
  |dEdx2 - dEdx|

/-- Modelled from the spec: the shared tiny-quantization OutputEncoder
(spec section 4.5; the external collaborator aod::pidutils::packInTable
with the pidtpc_tiny binning, called at source line 454): scale the
residual by the inverse bin width 0.1, round away from zero as a C cast
truncation does after the half offset, and saturate out-of-range values
to the underflow and overflow sentinels of the signed 8-bit domain. -/
noncomputable def packInTable (x : ℝ) : Int :=
  if x ≤ -12.7 then -128
  else if 12.7 ≤ x then 127
  else if 0 ≤ x then Int.floor (x / 0.1 + 0.5)
  else Int.ceil (x / 0.1 - 0.5)

/-- Compact-mode per-batch processing of one species (the first
makeProcess macro, source lines 441-459): when the per-species flag
named Use default tiny is at least 1.5, pass every track's pre-stored
compact residual through unchanged; otherwise compute the residual from
the models and encode it. -/
noncomputable def processParticle (sp : Species) (tbl : ConfigTable) (params : bbParams)
    (tracks : List Track) : List Int :=
  if 1.5 ≤ tbl (particleName sp) ("Use default tiny") then
    tracks.map (fun trk => trk.tpcNSigmaStore)
  else
    tracks.map (fun trk =>
      packInTable ((trk.tpcSignal - BetheBlochLf sp trk params) /
        BetheBlochResolutionLf sp trk params))

/-- Full-mode per-batch processing of one species (the second
makeProcess macro, source lines 474-492): when the per-species flag
named Use default full is at least 1.5, pass every track's pre-stored
(expected sigma, n-sigma) pair through unchanged; otherwise emit the
freshly computed (resolution, residual) pair. -/
noncomputable def processFullParticle (sp : Species) (tbl : ConfigTable) (params : bbParams)
    (tracks : List Track) : List (ℝ × ℝ) :=
  if 1.5 ≤ tbl (particleName sp) ("Use default full") then
    tracks.map (fun trk => (trk.tpcExpSigma, trk.tpcNSigma))
  else
    tracks.map (fun trk =>
      (BetheBlochResolutionLf sp trk params,
       (trk.tpcSignal - BetheBlochLf sp trk params) / BetheBlochResolutionLf sp trk params))

/-- Concrete track of the Pion reference scenario: tpcInnerParam 0.5 and
tpcSignal 50 (spec section 8). -/
noncomputable def pionTrack : Track :=
  { tpcInnerParam := 0.5, tpcSignal := 50, tpcNSigmaStore := 0,
    tpcExpSigma := 0, tpcNSigma := 0 }

/-- Reference Bethe-Bloch-Aleph expected-signal value for the Pion
scenario: the documented default constants, evaluated at betaGamma
equal to 0.5 over the pion mass, scaled by the default mip value
(the charge factor of the singly charged pion is 1). -/
noncomputable def pionReference : ℝ :=
  (bbParamsDefault.mip : ℝ) *
    BetheBlochAleph ((0.5 : ℝ) / ((sMasses2Z Species.Pi : ℚ) : ℝ))
      (bbParamsDefault.bb1 : ℝ) (bbParamsDefault.bb2 : ℝ) (bbParamsDefault.bb3 : ℝ)
      (bbParamsDefault.bb4 : ℝ) (bbParamsDefault.bb5 : ℝ)

/-- Absence of a label is exactly failure of binIndex. -/
lemma binIndex_eq_none (lab : String) (bs : List (String × ℚ)) :
    binIndex lab bs = none ↔ lab ∉ bs.map Prod.fst := by
  induction bs with
  | nil => simp [binIndex]
  | cons b rest ih =>
    by_cases hb : b.1 = lab
    · simp [binIndex, hb]
    · simp [binIndex, hb, Option.map_eq_none', ih, Ne.symm hb]

/-- FindBin never shrinks the axis. -/
lemma findBin_len_ge (h : TH1F) (lab : String) :
    h.bins.length ≤ ((h.findBin lab).1).bins.length := by
  unfold TH1F.findBin
  cases hbi : binIndex lab h.bins <;> simp

/-- FindBin on a missing label appends one bin. -/
lemma findBin_len_missing (h : TH1F) (lab : String) (hm : lab ∉ h.bins.map Prod.fst) :
    ((h.findBin lab).1).bins.length = h.bins.length + 1 := by
  unfold TH1F.findBin
  rw [(binIndex_eq_none lab h.bins).mpr hm]
  simp

/-- FindBin only ever adds the looked-up label, so a different missing
label stays missing. -/
lemma findBin_keys_not_mem (h : TH1F) (lab nm : String) (hnm : nm ∉ h.bins.map Prod.fst)
    (hne : nm ≠ lab) : nm ∉ ((h.findBin lab).1).bins.map Prod.fst := by
  unfold TH1F.findBin
  cases hbi : binIndex lab h.bins
  · simp [hnm, hne]
  · simpa using hnm

/-- The sequential lookups never shrink the axis. -/
lemma lookupAll_len_ge (ls : List String) : ∀ h : TH1F,
    h.bins.length ≤ ((lookupAll h ls).1).bins.length := by
  induction ls with
  | nil => intro h; simp [lookupAll]
  | cons lab rest ih =>
    intro h
    have h1 := findBin_len_ge h lab
    have h2 := ih (h.findBin lab).1
    have h3 : (lookupAll h (lab :: rest)).1 = (lookupAll (h.findBin lab).1 rest).1 := by
      simp [lookupAll]
    rw [h3]
    omega

/-- Looking up a label that the histogram is missing strictly grows the
axis. -/
lemma lookupAll_len_lt (ls : List String) : ∀ (h : TH1F) (nm : String),
    nm ∈ ls → nm ∉ h.bins.map Prod.fst →
    h.bins.length < ((lookupAll h ls).1).bins.length := by
  induction ls with
  | nil => intro h nm hin _; simp at hin
  | cons lab rest ih =>
    intro h nm hin hnot
    have h3 : (lookupAll h (lab :: rest)).1 = (lookupAll (h.findBin lab).1 rest).1 := by
      simp [lookupAll]
    rw [h3]
    by_cases heq : nm = lab
    · subst heq
      have h1 : ((h.findBin nm).1).bins.length = h.bins.length + 1 :=
        findBin_len_missing h nm hnot
      have h2 := lookupAll_len_ge rest (h.findBin nm).1
      omega
    · have hin2 : nm ∈ rest := by
        rcases List.mem_cons.mp hin with h0 | h0
        · exact absurd h0 heq
        · exact h0
      have h1 := findBin_len_ge h lab
      have h2 := ih (h.findBin lab).1 nm hin2 (findBin_keys_not_mem h lab nm hnot heq)
      omega

/-- Evaluation of setValues(TH1F) on a well-formed histogram holding
exactly the eight named bins in canonical order. -/
lemma setValuesHist_canonical (p : bbParams) (v1 v2 v3 v4 v5 v6 v7 v8 : ℚ) :
    bbParams.setValuesHist p (TH1F.mk
      [(("bb1"), v1), (("bb2"), v2), (("bb3"), v3), (("bb4"), v4),
       (("bb5"), v5), (("MIP value"), v6), (("Charge exponent"), v7), (("Resolution"), v8)]) =
    ({ bb1 := v1, bb2 := v2, bb3 := v3, bb4 := v4, bb5 := v5,
       mip := v6, exp := v7, res := v8 }, true) := by
  rfl

/-- Overload setValues(const char, Configurable) leaves everything
unchanged when the Set parameters flag is below the 1.5 threshold. -/
lemma setValuesCfg_noflag (p : bbParams) (particle : String) (tbl : ConfigTable)
    (h : tbl particle ("Set parameters") < 1.5) :
    bbParams.setValuesCfg p particle tbl = (p, false) := by
  unfold bbParams.setValuesCfg
  rw [if_pos h]

/-- Overload setValues(Configurable string, Service) does nothing for a
locator of length at most 1. -/
lemma setValuesStr_short (p : bbParams) (loc : String)
    (store : String → Option TH1F) (fileOpen : String → Option TFile)
    (h : loc.length ≤ 1) :
    bbParams.setValuesStr p loc store fileOpen = some (p, false) := by
  unfold bbParams.setValuesStr
  rw [if_pos h]

/-- Resolution with no config-table override and no external locator
keeps the compiled-in defaults. -/
lemma resolve_noOverride (sp : Species) (tbl : ConfigTable) (loc : String)
    (store : String → Option TH1F) (fileOpen : String → Option TFile)
    (h1 : tbl (particleName sp) ("Set parameters") < 1.5) (h2 : loc.length ≤ 1) :
    resolve sp tbl loc store fileOpen = some bbParamsDefault := by
  have e1 := setValuesCfg_noflag bbParamsDefault (particleName sp) tbl h1
  have e2 : ∀ q : bbParams, bbParams.setValuesStr q loc store fileOpen = some (q, false) :=
    fun q => setValuesStr_short q loc store fileOpen h2
  simp [resolve, e1, e2]

/-- All-zero configuration table: the compile-time default content of
the bbParameters Configurable. -/
def tbl0 : ConfigTable := fun _ _ => 0

/-- Configuration table with every entry 2, hence every boolean-like
flag raised above the 1.5 threshold. -/
def tbl2 : ConfigTable := fun _ _ => 2

/-- Calibration store holding no object at all. -/
def store0 : String → Option TH1F := fun _ => none

/-- File opener for which every open fails (TFile::Open yields a null
pointer). -/
def foNone : String → Option TFile := fun _ => none

/-- Well-formed external histogram carrying the eight named bins with
contents 1..8. -/
def histW : TH1F := TH1F.mk
  [(("bb1"), 1), (("bb2"), 2), (("bb3"), 3), (("bb4"), 4),
   (("bb5"), 5), (("MIP value"), 6), (("Charge exponent"), 7), (("Resolution"), 8)]

/-- Calibration store answering every key with the well-formed
histogram. -/
def storeW : String → Option TH1F := fun _ => some histW

/-- Workflow requiring exactly the compact Kaon table. -/
def requiredKa : String → Bool := fun s => s == ("pidTPCLfKa")

/-- Real power with base one is one, phrased on Real.rpow itself. -/
lemma rpow_base_one (y : ℝ) : Real.rpow 1 y = 1 := Real.one_rpow y

/-- C1: for every species, parameter set and track, the expected
detector signal equals mip times the Bethe-Bloch-Aleph curve at
betaGamma = innerParam divided by the (charge-normalized, following the
convention of the model) rest mass, times charge to the exp constant;
and for the Pion with the documented defaults and innerParam 0.5 the
result reproduces the reference curve value at betaGamma = 0.5 over the
pion mass within 1e-4 relative tolerance. -/
theorem C1_expected_signal_model :
    (∀ (id : Species) (track : Track) (params : bbParams),
        BetheBlochLf id track params =
          (params.mip : ℝ) *
            BetheBlochAleph (track.tpcInnerParam / ((sMasses2Z id : ℚ) : ℝ))
              (params.bb1 : ℝ) (params.bb2 : ℝ) (params.bb3 : ℝ) (params.bb4 : ℝ)
              (params.bb5 : ℝ) *
            Real.rpow ((sCharges id : ℚ) : ℝ) (params.exp : ℝ)) ∧
    |BetheBlochLf Species.Pi pionTrack bbParamsDefault - pionReference| ≤
      1e-4 * |pionReference| := by
  constructor
  · intro id track params
    simp only [BetheBlochLf, mul_one_div]
  · have hch : ((sCharges Species.Pi : ℚ) : ℝ) = 1 := by norm_num [sCharges]
    have h : BetheBlochLf Species.Pi pionTrack bbParamsDefault = pionReference := by
      simp only [BetheBlochLf, pionReference, pionTrack, mul_one_div, hch,
        rpow_base_one, mul_one]
    rw [h, sub_self, abs_zero]
    positivity

/-- C3: for every species, parameter set and track with positive
innerParam, the expected resolution is the absolute difference between
the curve re-evaluated at bgDelta = innerParam (1 + res sqrt(dEdx))
over the FULL rest mass (with the same mip and charge factors) and the
expected signal; consequently it is non-negative. -/
theorem C3_resolution_model (id : Species) (track : Track) (params : bbParams)
    (hpos : 0 < track.tpcInnerParam) :
    (BetheBlochResolutionLf id track params =
      |(params.mip : ℝ) *
          BetheBlochAleph
            (track.tpcInnerParam *
                (1 + (params.res : ℝ) * Real.sqrt (BetheBlochLf id track params)) /
              ((sMasses id : ℚ) : ℝ))
            (params.bb1 : ℝ) (params.bb2 : ℝ) (params.bb3 : ℝ) (params.bb4 : ℝ)
            (params.bb5 : ℝ) *
          Real.rpow ((sCharges id : ℚ) : ℝ) (params.exp : ℝ) -
        BetheBlochLf id track params|) ∧
    0 ≤ BetheBlochResolutionLf id track params := by
  constructor
  · simp only [BetheBlochResolutionLf, mul_one_div]
  · simp only [BetheBlochResolutionLf]
    exact abs_nonneg _

/-- Concrete track with positive innerParam for the C3 witness. -/
noncomputable def trkPos : Track :=
  { tpcInnerParam := 1, tpcSignal := 0, tpcNSigmaStore := 0, tpcExpSigma := 0, tpcNSigma := 0 }

/-- Witness for C3 at the Pion hypothesis and a track with
innerParam 1. -/
theorem C3_resolution_model_witness :
    0 < trkPos.tpcInnerParam ∧
    0 ≤ BetheBlochResolutionLf Species.Pi trkPos bbParamsDefault :=
  ⟨by norm_num [trkPos],
   (C3_resolution_model Species.Pi trkPos bbParamsDefault (by norm_num [trkPos])).2⟩

/-- C2: when a valid config-table override (flag at least 1.5) and a
valid external locator (length above 1, resolving through either the
calibration store or a local file to a well-formed histogram) are both
supplied, the resolved parameter set carries the external source's
eight values. -/
theorem C2_external_over_config (sp : Species) (tbl : ConfigTable) (loc : String)
    (store : String → Option TH1F) (fileOpen : String → Option TFile)
    (v1 v2 v3 v4 v5 v6 v7 v8 : ℚ) (hh : TH1F)
    (hcfg : 1.5 ≤ tbl (particleName sp) ("Set parameters"))
    (hlen : 1 < loc.length)
    (hext : (strStartsWith loc ("ccdb://") = true ∧ store (loc.drop 7) = some hh) ∨
            (strStartsWith loc ("ccdb://") = false ∧
             ∃ f : TFile, fileOpen loc = some f ∧ f.getObject ("hpar") = some hh))
    (hbins : hh.bins = [(("bb1"), v1), (("bb2"), v2), (("bb3"), v3), (("bb4"), v4),
                        (("bb5"), v5), (("MIP value"), v6), (("Charge exponent"), v7),
                        (("Resolution"), v8)]) :
    resolve sp tbl loc store fileOpen =
      some { bb1 := v1, bb2 := v2, bb3 := v3, bb4 := v4, bb5 := v5,
             mip := v6, exp := v7, res := v8 } := by
  obtain ⟨bins⟩ := hh
  dsimp only at hbins
  subst hbins
  have hn : ¬(loc.length ≤ 1) := by omega
  simp only [resolve]
  unfold bbParams.setValuesStr
  rw [if_neg hn]
  rcases hext with ⟨hsw, hst⟩ | ⟨hsw, f, hfo, hobj⟩
  · simp [hsw, hst, setValuesHist_canonical]
  · simp [hsw, hfo, bbParams.setValuesFile, hobj, setValuesHist_canonical]

/-- Witness for C2: Pion, an all-2 config table, and a ccdb locator
resolving to the well-formed histogram with contents 1..8. -/
theorem C2_external_over_config_witness :
    1.5 ≤ tbl2 (particleName Species.Pi) ("Set parameters") ∧
    1 < (("ccdb://h") : String).length ∧
    resolve Species.Pi tbl2 ("ccdb://h") storeW foNone =
      some { bb1 := 1, bb2 := 2, bb3 := 3, bb4 := 4, bb5 := 5, mip := 6, exp := 7, res := 8 } :=
  ⟨by norm_num [tbl2], by decide,
   C2_external_over_config Species.Pi tbl2 ("ccdb://h") storeW foNone 1 2 3 4 5 6 7 8 histW
     (by norm_num [tbl2]) (by decide) (Or.inl ⟨by decide, rfl⟩) rfl⟩

/-- C4 (code bug exhibit): with a non-empty non-scheme locator whose
file open fails (TFile::Open yields a null pointer), the resolution
cascade dereferences the null pointer -- modelled as the crash outcome
none -- instead of falling back to the previous-tier values. -/
theorem C4_crash_on_failed_file_open :
    resolve Species.Pi tbl0 ("missing.root") store0 foNone = none := by
  have hcfg : tbl0 (particleName Species.Pi) ("Set parameters") < 1.5 := by norm_num [tbl0]
  have hsw : strStartsWith ("missing.root") ("ccdb://") = false := by decide
  simp only [resolve, setValuesCfg_noflag _ _ _ hcfg]
  unfold bbParams.setValuesStr
  rw [if_neg (by decide : ¬((("missing.root") : String).length ≤ 1))]
  simp [hsw, foNone]

/-- C5: a histogram missing any of the eight required named bins makes
setValues(TH1F) fail and keep the previous parameter values. -/
theorem C5_malformed_histogram_retains (p : bbParams) (h : TH1F)
    (hmiss : ∃ nm ∈ binLabels, nm ∉ h.bins.map Prod.fst) :
    bbParams.setValuesHist p h = (p, false) := by
  obtain ⟨nm, hin, hnot⟩ := hmiss
  have hlt := lookupAll_len_lt binLabels h nm hin hnot
  simp only [bbParams.setValuesHist, TH1F.getNbinsX]
  rw [if_pos (by omega)]

/-- Witness for C5 at an empty histogram. -/
theorem C5_malformed_histogram_retains_witness :
    (∃ nm ∈ binLabels, nm ∉ (TH1F.mk []).bins.map Prod.fst) ∧
    bbParams.setValuesHist bbParamsDefault (TH1F.mk []) = (bbParamsDefault, false) :=
  ⟨⟨("bb1"), by decide, by simp⟩,
   C5_malformed_histogram_retains bbParamsDefault (TH1F.mk []) ⟨("bb1"), by decide, by simp⟩⟩

/-- C6: with no config-table override (flag below 1.5) and an external
locator of length at most 1, resolution returns exactly the compiled-in
default parameter set. -/
theorem C6_compiled_defaults (sp : Species) (tbl : ConfigTable) (loc : String)
    (store : String → Option TH1F) (fileOpen : String → Option TFile)
    (h1 : tbl (particleName sp) ("Set parameters") < 1.5) (h2 : loc.length ≤ 1) :
    resolve sp tbl loc store fileOpen =
      some { bb1 := 0.03209809958934784, bb2 := 19.9768009185791,
             bb3 := 2.5266601063857674e-16, bb4 := 2.7212300300598145,
             bb5 := 6.080920219421387, mip := 50, exp := 2.299999952316284,
             res := 0.002 } :=
  resolve_noOverride sp tbl loc store fileOpen h1 h2

/-- Witness for C6: Pion, the all-zero table, the empty locator. -/
theorem C6_compiled_defaults_witness :
    tbl0 (particleName Species.Pi) ("Set parameters") < 1.5 ∧
    (("") : String).length ≤ 1 ∧
    resolve Species.Pi tbl0 ("") store0 foNone =
      some { bb1 := 0.03209809958934784, bb2 := 19.9768009185791,
             bb3 := 2.5266601063857674e-16, bb4 := 2.7212300300598145,
             bb5 := 6.080920219421387, mip := 50, exp := 2.299999952316284,
             res := 0.002 } :=
  ⟨by norm_num [tbl0], by decide,
   C6_compiled_defaults Species.Pi tbl0 ("") store0 foNone (by norm_num [tbl0]) (by decide)⟩

/-- C7: the config-table source overwrites all eight constants exactly
when its Set parameters flag is at least 1.5 (its parsed vector then
having length exactly 8); below the threshold the parameter set is
unchanged, and a vector of length other than 8 fails and leaves the
parameter set unchanged. -/
theorem C7_config_override (p : bbParams) (particle : String) (tbl : ConfigTable) :
    (1.5 ≤ tbl particle ("Set parameters") →
      bbParams.setValuesCfg p particle tbl =
        ({ bb1 := tbl particle ("bb1"), bb2 := tbl particle ("bb2"),
           bb3 := tbl particle ("bb3"), bb4 := tbl particle ("bb4"),
           bb5 := tbl particle ("bb5"), mip := tbl particle ("MIP value"),
           exp := tbl particle ("Charge exponent"), res := tbl particle ("Resolution") },
         true)) ∧
    (tbl particle ("Set parameters") < 1.5 →
      bbParams.setValuesCfg p particle tbl = (p, false)) ∧
    (∀ v : List ℚ, v.length ≠ 8 → bbParams.setValuesVec p v = (p, false)) := by
  refine ⟨fun hge => ?_, fun hlt => setValuesCfg_noflag p particle tbl hlt, fun v hv => ?_⟩
  · unfold bbParams.setValuesCfg
    rw [if_neg (not_lt.mpr hge)]
    rfl
  · unfold bbParams.setValuesVec
    rw [if_pos hv]

/-- Witness for C7: the all-2 table triggers the overwrite, the
all-zero table leaves the defaults, and the empty vector fails. -/
theorem C7_config_override_witness :
    (1.5 ≤ tbl2 (("Pi")) ("Set parameters") ∧
      bbParams.setValuesCfg bbParamsDefault (("Pi")) tbl2 =
        ({ bb1 := tbl2 (("Pi")) ("bb1"), bb2 := tbl2 (("Pi")) ("bb2"),
           bb3 := tbl2 (("Pi")) ("bb3"), bb4 := tbl2 (("Pi")) ("bb4"),
           bb5 := tbl2 (("Pi")) ("bb5"), mip := tbl2 (("Pi")) ("MIP value"),
           exp := tbl2 (("Pi")) ("Charge exponent"), res := tbl2 (("Pi")) ("Resolution") },
         true)) ∧
    (tbl0 (("Pi")) ("Set parameters") < 1.5 ∧
      bbParams.setValuesCfg bbParamsDefault (("Pi")) tbl0 = (bbParamsDefault, false)) ∧
    (([] : List ℚ).length ≠ 8 ∧
      bbParams.setValuesVec bbParamsDefault [] = (bbParamsDefault, false)) :=
  ⟨⟨by norm_num [tbl2],
    (C7_config_override bbParamsDefault (("Pi")) tbl2).1 (by norm_num [tbl2])⟩,
   ⟨by norm_num [tbl0],
    (C7_config_override bbParamsDefault (("Pi")) tbl0).2.1 (by norm_num [tbl0])⟩,
   ⟨by decide,
    (C7_config_override bbParamsDefault (("Pi")) tbl0).2.2 [] (by decide)⟩⟩

/-- C8: when a species' Use default tiny (respectively Use default full)
flag is at least 1.5, the emitted table entries are exactly the tracks'
pre-stored values, for every parameter set -- the models are never
consulted. -/
theorem C8_legacy_passthrough (sp : Species) (tbl : ConfigTable) (params : bbParams)
    (tracks : List Track) :
    (1.5 ≤ tbl (particleName sp) ("Use default tiny") →
      processParticle sp tbl params tracks = tracks.map (fun trk => trk.tpcNSigmaStore)) ∧
    (1.5 ≤ tbl (particleName sp) ("Use default full") →
      processFullParticle sp tbl params tracks =
        tracks.map (fun trk => (trk.tpcExpSigma, trk.tpcNSigma))) := by
  constructor
  · intro hf
    unfold processParticle
    rw [if_pos hf]
  · intro hf
    unfold processFullParticle
    rw [if_pos hf]

/-- Concrete track with distinct stored values for the C8 witness. -/
noncomputable def trkW : Track :=
  { tpcInnerParam := 1, tpcSignal := 2, tpcNSigmaStore := 5, tpcExpSigma := 3, tpcNSigma := 4 }

/-- Witness for C8 at the Pion hypothesis with the all-2 table. -/
theorem C8_legacy_passthrough_witness :
    1.5 ≤ tbl2 (particleName Species.Pi) ("Use default tiny") ∧
    1.5 ≤ tbl2 (particleName Species.Pi) ("Use default full") ∧
    processParticle Species.Pi tbl2 bbParamsDefault [trkW] =
      [trkW].map (fun trk => trk.tpcNSigmaStore) ∧
    processFullParticle Species.Pi tbl2 bbParamsDefault [trkW] =
      [trkW].map (fun trk => (trk.tpcExpSigma, trk.tpcNSigma)) :=
  ⟨by norm_num [tbl2], by norm_num [tbl2],
   (C8_legacy_passthrough Species.Pi tbl2 bbParamsDefault [trkW]).1 (by norm_num [tbl2]),
   (C8_legacy_passthrough Species.Pi tbl2 bbParamsDefault [trkW]).2 (by norm_num [tbl2])⟩

/-- C9: a species with both processing modes disabled whose compact or
full output table is nonetheless required by the workflow makes init
abort with a fatal error, before any track processing and before any
table is created. -/
theorem C9_fatal_crosscheck (sp : Species) (required : String → Bool)
    (tbl : ConfigTable) (loc : String) (store : String → Option TH1F)
    (fileOpen : String → Option TFile)
    (hreq : required (tinyTableName sp) = true ∨ required (fullTableName sp) = true) :
    initSpecies sp false false required tbl loc store fileOpen = InitOutcome.fatal := by
  unfold initSpecies
  rcases hreq with h | h <;> simp [h]

/-- Witness for C9: the compact Kaon table is requested while both Kaon
modes are disabled. -/
theorem C9_fatal_crosscheck_witness :
    (requiredKa (tinyTableName Species.Ka) = true ∨
      requiredKa (fullTableName Species.Ka) = true) ∧
    initSpecies Species.Ka false false requiredKa tbl0 ("") store0 foNone =
      InitOutcome.fatal :=
  ⟨Or.inl (by decide),
   C9_fatal_crosscheck Species.Ka requiredKa tbl0 ("") store0 foNone (Or.inl (by decide))⟩

/-- C10: the compiled-in defaults are species-independent -- resolving
any two species with no config-table override and no external locator
yields the same parameter set -- and the compile-time content of the
structured configuration table is zero for every species and every
parameter. -/
theorem C10_defaults_species_independent :
    (∀ (s1 s2 : Species) (tbl : ConfigTable) (loc : String)
        (store : String → Option TH1F) (fileOpen : String → Option TFile),
        tbl (particleName s1) ("Set parameters") < 1.5 →
        tbl (particleName s2) ("Set parameters") < 1.5 →
        loc.length ≤ 1 →
        resolve s1 tbl loc store fileOpen = resolve s2 tbl loc store fileOpen) ∧
    (∀ (i : Fin nSpecies) (j : Fin nParameters), defaultParameters i j = 0) := by
  constructor
  · intro s1 s2 tbl loc store fileOpen h1 h2 hl
    rw [resolve_noOverride s1 tbl loc store fileOpen h1 hl,
       resolve_noOverride s2 tbl loc store fileOpen h2 hl]
  · intro i j
    rfl

/-- Witness for C10 at Electron versus Helium3 with the all-zero table
and the empty locator. -/
theorem C10_defaults_species_independent_witness :
    tbl0 (particleName Species.El) ("Set parameters") < 1.5 ∧
    tbl0 (particleName Species.He) ("Set parameters") < 1.5 ∧
    (("") : String).length ≤ 1 ∧
    resolve Species.El tbl0 ("") store0 foNone = resolve Species.He tbl0 ("") store0 foNone :=
  ⟨by norm_num [tbl0], by norm_num [tbl0], by decide,
   C10_defaults_species_independent.1 Species.El Species.He tbl0 ("") store0 foNone
     (by norm_num [tbl0]) (by norm_num [tbl0]) (by decide)⟩
